import Mathlib

/-!
Shallow embedding of `custom_components/x720/sensor.py` (the X720 fuel-gauge
driver and its Home Assistant setup path).

Modelling conventions:
* Python floats are modelled as exact rationals (`ℚ`); all constants involved
  (`1.25 = 5/4`, `1000`, `16`, `256`) are exactly representable, so the
  arithmetic of the claims is faithful.
* A Python value that may be `None`, `False` or a float is modelled by `PyVal`
  (`FieldData.__init__` sets `voltage = False`, while `SensorData.__init__`
  sets both fields to `None`; Python truthiness maps to `PyVal.falsy`).
* The i2c transport (`smbus.SMBus.read_word_data`) is modelled as a function
  `Bus` from the global call index, device address and register to either a
  raw word or a raised `IOError`/`RuntimeError` (`Except BusError Nat`).
  Exceptions are modelled by `Except.error` propagation, exactly where the
  Python code would let them propagate.
* To reason about ordering of bus transactions and of `sleep`, every state
  carries a `trace` of events (`Event.read` for each `read_word_data` call,
  `Event.sleepMs` for each `sleep`) and a `counter` of reads performed so far.
* `struct.unpack("<H", struct.pack(">H", read))[0]` is the 16-bit byte swap
  `swap16`.
-/

/-- A Python value that is `None`, `False`, or a float (modelled as `ℚ`). -/
inductive PyVal where
  | vNone : PyVal
  | vFalse : PyVal
  | vNum : ℚ → PyVal
deriving DecidableEq, Repr

/-- Python truthiness test (`if not x:`) for the values we track:
`None` and `False` are falsy, a float is falsy exactly when it is `0.0`. -/
def PyVal.falsy : PyVal → Bool
  | PyVal.vNone => true
  | PyVal.vFalse => true
  | PyVal.vNum q => if q = 0 then true else false

/-- Exceptions the bus layer can raise (`IOError`, `RuntimeError`);
`_setup_x720` catches exactly these around the `X720(...)` construction. -/
inductive BusError where
  | ioError : BusError
  | runtimeError : BusError
deriving DecidableEq, Repr

/-- The i2c transport: the n-th `read_word_data(addr, register)` call overall
(call index `n`) either returns a raw 16-bit word or raises. -/
abbrev Bus : Type := Nat → Nat → Nat → Except BusError Nat

/-- Observable events of an execution: a `read_word_data` call (with its
global call index, device address and register), or a `sleep` of some
number of milliseconds. -/
inductive Event where
  | read (callIdx addr reg : Nat) : Event
  | sleepMs (ms : Nat) : Event
deriving DecidableEq, Repr

/-- `FieldData` (`sensor.py` lines 165-171): the raw device-side buffer. -/
structure FieldData where
  status : PyVal
  voltage : PyVal
  capacity : PyVal
deriving DecidableEq, Repr

/-- `FieldData.__init__`: `status = None`, `voltage = False`, `capacity = None`. -/
def FieldData.init : FieldData :=
  { status := PyVal.vNone, voltage := PyVal.vFalse, capacity := PyVal.vNone }

/-- `X720Handler.SensorData` (lines 87-93): the handler-side cache. -/
structure SensorData where
  voltage : PyVal
  capacity : PyVal
deriving DecidableEq, Repr

/-- `SensorData.__init__`: both fields `None`. -/
def SensorData.init : SensorData :=
  { voltage := PyVal.vNone, capacity := PyVal.vNone }

/-- The full mutable state threaded through the embedded operations:
the device object's `.data` (`X720Data`), the handler's `.sensor_data`,
the number of bus reads performed so far, and the event trace. -/
structure World where
  data : FieldData
  sensor_data : SensorData
  counter : Nat
  trace : List Event
deriving DecidableEq, Repr

/-- The state at process start: both buffers in their `__init__` state,
no reads performed, empty trace. -/
def World.init : World :=
  { data := FieldData.init, sensor_data := SensorData.init,
    counter := 0, trace := [] }

/-- The 16-bit byte swap performed by
`struct.unpack("<H", struct.pack(">H", read))[0]`:
the low byte becomes the high byte and vice versa. -/
def swap16 (w : Nat) : Nat := (w % 256) * 256 + (w / 256) % 256

/-- The voltage conversion `swapped * 1.25 / 1000 / 16` (line 199);
`1.25 = 5/4` exactly. -/
def voltageConv (v : Nat) : ℚ := (v : ℚ) * (5 / 4) / 1000 / 16

/-- The capacity conversion `swapped / 256` (line 203). -/
def capacityConv (v : Nat) : ℚ := (v : ℚ) / 256

/-- `X720.get_sensor_data` (lines 192-205): reads register `2`, byte-swaps
and stores the voltage, then reads register `4`, byte-swaps and stores the
capacity, and returns `True`.  A bus exception propagates immediately; note
that a fault on the second read happens *after* `self.data.voltage` has
already been overwritten. -/
def get_sensor_data (bus : Bus) (addr : Nat) (w : World) :
    World × Except BusError Bool :=
  let w1 : World :=
    { w with counter := w.counter + 1,
             trace := w.trace ++ [Event.read w.counter addr 2] }
  match bus w.counter addr 2 with
  | Except.error e => (w1, Except.error e)
  | Except.ok r1 =>
    let w2 : World :=
      { w1 with data :=
          { w1.data with voltage := PyVal.vNum (voltageConv (swap16 r1)) } }
    let w3 : World :=
      { w2 with counter := w2.counter + 1,
                trace := w2.trace ++ [Event.read w2.counter addr 4] }
    match bus w2.counter addr 4 with
    | Except.error e => (w3, Except.error e)
    | Except.ok r2 =>
      ({ w3 with data :=
          { w3.data with capacity := PyVal.vNum (capacityConv (swap16 r2)) } },
       Except.ok true)

/-- `X720.__init__` (lines 181-190): `X720Data.__init__` resets `self.data`
to a fresh `FieldData`, the address and bus handle are stored, and then
`self.get_sensor_data()` is called — construction performs bus I/O and
propagates any bus exception. -/
def X720.init (bus : Bus) (addr : Nat) (w : World) :
    World × Except BusError Unit :=
  match get_sensor_data bus addr { w with data := FieldData.init } with
  | (w1, Except.error e) => (w1, Except.error e)
  | (w1, Except.ok _) => (w1, Except.ok ())

/-- The unconditional tail of `X720Handler.update` (lines 109-111):
`if self._sensor.get_sensor_data(): copy voltage and capacity into
self.sensor_data`. -/
def X720Handler.updateMain (bus : Bus) (addr : Nat) (w : World) :
    World × Except BusError Unit :=
  match get_sensor_data bus addr w with
  | (w1, Except.error e) => (w1, Except.error e)
  | (w1, Except.ok b) =>
    if b then
      ({ w1 with sensor_data :=
          { voltage := w1.data.voltage, capacity := w1.data.capacity } },
       Except.ok ())
    else (w1, Except.ok ())

/-- `X720Handler.update` (lines 104-111): when `first_read` is set, a
throwaway `get_sensor_data()` whose boolean result is discarded (but whose
exception would propagate), then the guarded read-and-copy. -/
def X720Handler.update (bus : Bus) (addr : Nat) :
    Bool → World → World × Except BusError Unit
  | true, w =>
    match get_sensor_data bus addr w with
    | (w1, Except.error e) => (w1, Except.error e)
    | (w1, Except.ok _) => X720Handler.updateMain bus addr w1
  | false, w => X720Handler.updateMain bus addr w

/-- `X720Handler.__init__` (lines 95-102): fresh `SensorData`, store the
sensor, then `self.update(first_read=True)`. -/
def X720Handler.init (bus : Bus) (addr : Nat) (w : World) :
    World × Except BusError Unit :=
  X720Handler.update bus addr true { w with sensor_data := SensorData.init }

/-- The possible outcomes of `_setup_x720` when it returns normally:
`None` after a caught construction error ("sensor not detected"),
`None` after the falsy-voltage check ("failed to Initialize"),
or the handler itself. -/
inductive SetupResult where
  | noneNotDetected : SetupResult
  | noneInitFailed : SetupResult
  | someHandler : SetupResult
deriving DecidableEq, Repr

/-- `_setup_x720` (lines 59-82): construct `X720` inside
`try ... except (RuntimeError, IOError): return None`; construct
`X720Handler` *outside* any try (an exception there propagates to the
caller); `sleep(0.5)`; return `None` if `sensor_data.voltage` is falsy,
else the handler. -/
def setup_x720 (bus : Bus) (addr : Nat) :
    World × Except BusError SetupResult :=
  match X720.init bus addr World.init with
  | (w1, Except.error _) => (w1, Except.ok SetupResult.noneNotDetected)
  | (w1, Except.ok _) =>
    match X720Handler.init bus addr w1 with
    | (w2, Except.error e) => (w2, Except.error e)
    | (w2, Except.ok _) =>
      ({ w2 with trace := w2.trace ++ [Event.sleepMs 500] },
       if w2.sensor_data.voltage.falsy then Except.ok SetupResult.noneInitFailed
       else Except.ok SetupResult.someHandler)

/-- Is this event a bus read? -/
def Event.isRead : Event → Bool
  | Event.read _ _ _ => true
  | Event.sleepMs _ => false

/-- Is this event a sleep of at least `n` milliseconds? -/
def Event.isSleepGE (n : Nat) : Event → Bool
  | Event.sleepMs m => n ≤ m
  | Event.read _ _ _ => false

/-- Number of bus reads recorded in a trace. -/
def countReads (tr : List Event) : Nat := (tr.filter Event.isRead).length

/-- Does the trace contain a sleep of ≥ 500 ms followed (later) by a read? -/
def hasSleepThenRead : List Event → Bool
  | [] => false
  | e :: rest => (Event.isSleepGE 500 e && rest.any Event.isRead)
      || hasSleepThenRead rest

/-- Does the trace contain a read, later a sleep of ≥ 500 ms, and later
another read — i.e. a read path invoked twice with an intervening delay of
at least 500 ms? -/
def hasReadThenSleepThenRead : List Event → Bool
  | [] => false
  | e :: rest => (Event.isRead e && hasSleepThenRead rest)
      || hasReadThenSleepThenRead rest

/-- The handler-cache coherence property: the cache is still in its
`__init__` state, or both fields were produced by the two consecutive reads
(same `get_sensor_data` cycle, call indices `n` and `n + 1`) of one
successful read cycle. -/
def SDConsistent (bus : Bus) (addr : Nat) (sd : SensorData) : Prop :=
  sd = SensorData.init ∨
  ∃ n v2 v4, bus n addr 2 = Except.ok v2 ∧ bus (n + 1) addr 4 = Except.ok v4 ∧
    sd = { voltage := PyVal.vNum (voltageConv (swap16 v2)),
           capacity := PyVal.vNum (capacityConv (swap16 v4)) }

/-- Iterate `X720Handler.update` over a list of `first_read` flags
(the state after an exception is still threaded, matching the fact that the
Python object keeps its state when an exception propagates out of a method). -/
def runUpdates (bus : Bus) (addr : Nat) : List Bool → World → World
  | [], w => w
  | fr :: ops, w => runUpdates bus addr ops (X720Handler.update bus addr fr w).1

/-! ### Characterization lemmas for the embedded operations -/

/-- `get_sensor_data` when both reads succeed. -/
theorem gsd_ok (bus : Bus) (addr : Nat) (w : World) (v2 v4 : Nat)
    (h2 : bus w.counter addr 2 = Except.ok v2)
    (h4 : bus (w.counter + 1) addr 4 = Except.ok v4) :
    get_sensor_data bus addr w =
      ({ data := { status := w.data.status,
                   voltage := PyVal.vNum (voltageConv (swap16 v2)),
                   capacity := PyVal.vNum (capacityConv (swap16 v4)) },
         sensor_data := w.sensor_data,
         counter := w.counter + 2,
         trace := w.trace ++ [Event.read w.counter addr 2,
                              Event.read (w.counter + 1) addr 4] },
       Except.ok true) := by
  unfold get_sensor_data
  rw [h2]
  simp only []
  rw [show (w.counter + 1) = w.counter + 1 from rfl, h4]
  simp [List.append_assoc]

/-- `get_sensor_data` when the first (voltage) read raises. -/
theorem gsd_err1 (bus : Bus) (addr : Nat) (w : World) (e : BusError)
    (h2 : bus w.counter addr 2 = Except.error e) :
    get_sensor_data bus addr w =
      ({ w with counter := w.counter + 1,
                trace := w.trace ++ [Event.read w.counter addr 2] },
       Except.error e) := by
  unfold get_sensor_data
  rw [h2]

/-- `get_sensor_data` when the first read succeeds and the second
(capacity) read raises: `data.voltage` has already been overwritten. -/
theorem gsd_err2 (bus : Bus) (addr : Nat) (w : World) (v2 : Nat) (e : BusError)
    (h2 : bus w.counter addr 2 = Except.ok v2)
    (h4 : bus (w.counter + 1) addr 4 = Except.error e) :
    get_sensor_data bus addr w =
      ({ data := { status := w.data.status,
                   voltage := PyVal.vNum (voltageConv (swap16 v2)),
                   capacity := w.data.capacity },
         sensor_data := w.sensor_data,
         counter := w.counter + 2,
         trace := w.trace ++ [Event.read w.counter addr 2,
                              Event.read (w.counter + 1) addr 4] },
       Except.error e) := by
  unfold get_sensor_data
  rw [h2]
  simp only []
  rw [h4]
  simp [List.append_assoc]

/-- `X720.__init__` when both construction reads succeed. -/
theorem X720init_ok (bus : Bus) (addr : Nat) (w : World) (v2 v4 : Nat)
    (h2 : bus w.counter addr 2 = Except.ok v2)
    (h4 : bus (w.counter + 1) addr 4 = Except.ok v4) :
    X720.init bus addr w =
      ({ data := { status := PyVal.vNone,
                   voltage := PyVal.vNum (voltageConv (swap16 v2)),
                   capacity := PyVal.vNum (capacityConv (swap16 v4)) },
         sensor_data := w.sensor_data,
         counter := w.counter + 2,
         trace := w.trace ++ [Event.read w.counter addr 2,
                              Event.read (w.counter + 1) addr 4] },
       Except.ok ()) := by
  unfold X720.init
  rw [gsd_ok bus addr { w with data := FieldData.init } v2 v4 h2 h4]
  rfl

/-- `X720.__init__` when the very first read raises: the exception
propagates out of the constructor. -/
theorem X720init_err1 (bus : Bus) (addr : Nat) (w : World) (e : BusError)
    (h2 : bus w.counter addr 2 = Except.error e) :
    X720.init bus addr w =
      ({ w with data := FieldData.init, counter := w.counter + 1,
                trace := w.trace ++ [Event.read w.counter addr 2] },
       Except.error e) := by
  unfold X720.init
  rw [gsd_err1 bus addr { w with data := FieldData.init } e h2]

/-- The tail of `update` when both reads succeed: the handler cache is
overwritten with the freshly converted pair. -/
theorem updateMain_ok (bus : Bus) (addr : Nat) (w : World) (v2 v4 : Nat)
    (h2 : bus w.counter addr 2 = Except.ok v2)
    (h4 : bus (w.counter + 1) addr 4 = Except.ok v4) :
    X720Handler.updateMain bus addr w =
      ({ data := { status := w.data.status,
                   voltage := PyVal.vNum (voltageConv (swap16 v2)),
                   capacity := PyVal.vNum (capacityConv (swap16 v4)) },
         sensor_data := { voltage := PyVal.vNum (voltageConv (swap16 v2)),
                          capacity := PyVal.vNum (capacityConv (swap16 v4)) },
         counter := w.counter + 2,
         trace := w.trace ++ [Event.read w.counter addr 2,
                              Event.read (w.counter + 1) addr 4] },
       Except.ok ()) := by
  unfold X720Handler.updateMain
  rw [gsd_ok bus addr w v2 v4 h2 h4]
  rfl

/-- The tail of `update` propagates a `get_sensor_data` exception. -/
theorem updateMain_err (bus : Bus) (addr : Nat) (w w1 : World) (e : BusError)
    (h : get_sensor_data bus addr w = (w1, Except.error e)) :
    X720Handler.updateMain bus addr w = (w1, Except.error e) := by
  unfold X720Handler.updateMain
  rw [h]

/-- `update(first_read=True)` after a successful throwaway read continues
with the guarded read-and-copy. -/
theorem update_true_ok (bus : Bus) (addr : Nat) (w w1 : World) (b : Bool)
    (h : get_sensor_data bus addr w = (w1, Except.ok b)) :
    X720Handler.update bus addr true w = X720Handler.updateMain bus addr w1 := by
  simp only [X720Handler.update]
  rw [h]

/-- `update(first_read=True)` propagates an exception of the throwaway read. -/
theorem update_true_err (bus : Bus) (addr : Nat) (w w1 : World) (e : BusError)
    (h : get_sensor_data bus addr w = (w1, Except.error e)) :
    X720Handler.update bus addr true w = (w1, Except.error e) := by
  simp only [X720Handler.update]
  rw [h]

/-- `update(first_read=False)` is exactly the guarded read-and-copy. -/
theorem update_false (bus : Bus) (addr : Nat) (w : World) :
    X720Handler.update bus addr false w = X720Handler.updateMain bus addr w := rfl

/-- `get_sensor_data` never touches the handler cache `sensor_data`. -/
theorem gsd_sd (bus : Bus) (addr : Nat) (w : World) :
    ((get_sensor_data bus addr w).1).sensor_data = w.sensor_data := by
  rcases hb2 : bus w.counter addr 2 with e | v2
  · rw [gsd_err1 bus addr w e hb2]
  · rcases hb4 : bus (w.counter + 1) addr 4 with e | v4
    · rw [gsd_err2 bus addr w v2 e hb2 hb4]
    · rw [gsd_ok bus addr w v2 v4 hb2 hb4]

/-- `X720Handler.__init__` when all four of its reads succeed (throwaway
cycle, then the evaluated cycle): the cache holds the conversions of the
*second* cycle's words. -/
theorem handlerInit_allok (bus : Bus) (addr : Nat) (w : World) (v0 v1 v2 v3 : Nat)
    (h0 : bus w.counter addr 2 = Except.ok v0)
    (h1 : bus (w.counter + 1) addr 4 = Except.ok v1)
    (h2 : bus (w.counter + 2) addr 2 = Except.ok v2)
    (h3 : bus (w.counter + 3) addr 4 = Except.ok v3) :
    X720Handler.init bus addr w =
      ({ data := { status := w.data.status,
                   voltage := PyVal.vNum (voltageConv (swap16 v2)),
                   capacity := PyVal.vNum (capacityConv (swap16 v3)) },
         sensor_data := { voltage := PyVal.vNum (voltageConv (swap16 v2)),
                          capacity := PyVal.vNum (capacityConv (swap16 v3)) },
         counter := w.counter + 4,
         trace := w.trace ++ [Event.read w.counter addr 2,
                              Event.read (w.counter + 1) addr 4,
                              Event.read (w.counter + 2) addr 2,
                              Event.read (w.counter + 3) addr 4] },
       Except.ok ()) := by
  unfold X720Handler.init
  rw [update_true_ok bus addr _ _ true
        (gsd_ok bus addr { w with sensor_data := SensorData.init } v0 v1 h0 h1)]
  rw [updateMain_ok bus addr _ v2 v3 h2 h3]
  simp [List.append_assoc]

/-- `X720Handler.__init__` when its very first (throwaway) read raises:
the exception propagates out of the handler constructor. -/
theorem handlerInit_err1 (bus : Bus) (addr : Nat) (w : World) (e : BusError)
    (h : bus w.counter addr 2 = Except.error e) :
    X720Handler.init bus addr w =
      ({ w with sensor_data := SensorData.init, counter := w.counter + 1,
                trace := w.trace ++ [Event.read w.counter addr 2] },
       Except.error e) := by
  unfold X720Handler.init
  rw [update_true_err bus addr _ _ e
        (gsd_err1 bus addr { w with sensor_data := SensorData.init } e h)]

/-- `_setup_x720` when all six reads succeed: two in the `X720`
constructor, four in the handler constructor; the single `sleep(0.5)`
happens *after* all reads, and the final result depends on the truthiness
of the voltage converted from the fifth read. -/
theorem setup_allok (bus : Bus) (addr : Nat) (v0 v1 v2 v3 v4 v5 : Nat)
    (h0 : bus 0 addr 2 = Except.ok v0) (h1 : bus 1 addr 4 = Except.ok v1)
    (h2 : bus 2 addr 2 = Except.ok v2) (h3 : bus 3 addr 4 = Except.ok v3)
    (h4 : bus 4 addr 2 = Except.ok v4) (h5 : bus 5 addr 4 = Except.ok v5) :
    setup_x720 bus addr =
      ({ data := { status := PyVal.vNone,
                   voltage := PyVal.vNum (voltageConv (swap16 v4)),
                   capacity := PyVal.vNum (capacityConv (swap16 v5)) },
         sensor_data := { voltage := PyVal.vNum (voltageConv (swap16 v4)),
                          capacity := PyVal.vNum (capacityConv (swap16 v5)) },
         counter := 6,
         trace := [Event.read 0 addr 2, Event.read 1 addr 4,
                   Event.read 2 addr 2, Event.read 3 addr 4,
                   Event.read 4 addr 2, Event.read 5 addr 4,
                   Event.sleepMs 500] },
       if (PyVal.vNum (voltageConv (swap16 v4))).falsy
       then Except.ok SetupResult.noneInitFailed
       else Except.ok SetupResult.someHandler) := by
  unfold setup_x720
  rw [X720init_ok bus addr World.init v0 v1 h0 h1]
  dsimp only
  rw [handlerInit_allok bus addr _ v2 v3 v4 v5 h2 h3 h4 h5]
  simp [List.append_assoc, World.init, FieldData.init, SensorData.init]

/-- `_setup_x720` when the constructor's first read raises: the exception
is caught by the `try`/`except` and `None` is returned. -/
theorem setup_err0 (bus : Bus) (addr : Nat) (e : BusError)
    (h0 : bus 0 addr 2 = Except.error e) :
    setup_x720 bus addr =
      ({ data := FieldData.init, sensor_data := SensorData.init,
         counter := 1, trace := [Event.read 0 addr 2] },
       Except.ok SetupResult.noneNotDetected) := by
  unfold setup_x720
  rw [X720init_err1 bus addr World.init e h0]
  rfl

/-- `_setup_x720` when construction succeeds but the handler's first
(throwaway) read raises: the exception escapes `_setup_x720` uncaught. -/
theorem setup_err_handler (bus : Bus) (addr : Nat) (v0 v1 : Nat) (e : BusError)
    (h0 : bus 0 addr 2 = Except.ok v0) (h1 : bus 1 addr 4 = Except.ok v1)
    (h2 : bus 2 addr 2 = Except.error e) :
    (setup_x720 bus addr).2 = Except.error e := by
  unfold setup_x720
  rw [X720init_ok bus addr World.init v0 v1 h0 h1]
  dsimp only
  rw [handlerInit_err1 bus addr _ e h2]

/-- Every call of `get_sensor_data` performs bus I/O: the event trace
strictly grows. -/
theorem gsd_trace_grows (bus : Bus) (addr : Nat) (w : World) :
    w.trace.length < ((get_sensor_data bus addr w).1).trace.length := by
  rcases hb2 : bus w.counter addr 2 with e | v2
  · rw [gsd_err1 bus addr w e hb2]
    simp
  · rcases hb4 : bus (w.counter + 1) addr 4 with e | v4
    · rw [gsd_err2 bus addr w v2 e hb2 hb4]
      simp
    · rw [gsd_ok bus addr w v2 v4 hb2 hb4]
      simp

/-- The state `X720.__init__` leaves behind is exactly the state of its
single `get_sensor_data` call. -/
theorem X720init_fst (bus : Bus) (addr : Nat) (w : World) :
    (X720.init bus addr w).1 =
      (get_sensor_data bus addr { w with data := FieldData.init }).1 := by
  unfold X720.init
  rcases hg : get_sensor_data bus addr { w with data := FieldData.init } with ⟨w1, r⟩
  cases r
  · rfl
  · rfl

/-- If the tail of `update` raises, the handler cache is untouched. -/
theorem updateMain_err_sd (bus : Bus) (addr : Nat) (w w' : World) (e : BusError)
    (h : X720Handler.updateMain bus addr w = (w', Except.error e)) :
    w'.sensor_data = w.sensor_data := by
  have hsd := gsd_sd bus addr w
  rcases hg : get_sensor_data bus addr w with ⟨w1, r⟩
  rw [hg] at hsd
  cases r with
  | error e1 =>
    rw [updateMain_err bus addr w w1 e1 hg] at h
    injection h with h1 h2
    rw [← h1]
    exact hsd
  | ok b =>
    unfold X720Handler.updateMain at h
    rw [hg] at h
    cases b
    · simp at h
    · simp at h

/-- Case analysis on the tail of `update`: the handler cache is either left
unchanged, or overwritten with the conversions of the two words read by
this very cycle (consecutive call indices). -/
theorem updateMain_sd_cases (bus : Bus) (addr : Nat) (w : World) :
    ((X720Handler.updateMain bus addr w).1).sensor_data = w.sensor_data ∨
    (∃ v2 v4, bus w.counter addr 2 = Except.ok v2 ∧
      bus (w.counter + 1) addr 4 = Except.ok v4 ∧
      ((X720Handler.updateMain bus addr w).1).sensor_data =
        { voltage := PyVal.vNum (voltageConv (swap16 v2)),
          capacity := PyVal.vNum (capacityConv (swap16 v4)) }) := by
  rcases hb2 : bus w.counter addr 2 with e | v2
  · left
    rw [updateMain_err bus addr w _ e (gsd_err1 bus addr w e hb2)]
  · rcases hb4 : bus (w.counter + 1) addr 4 with e | v4
    · left
      rw [updateMain_err bus addr w _ e (gsd_err2 bus addr w v2 e hb2 hb4)]
    · right
      refine ⟨v2, v4, rfl, rfl, ?_⟩
      rw [updateMain_ok bus addr w v2 v4 hb2 hb4]

/-- Case analysis on `update` (either `first_read` mode): the handler cache
is left unchanged or overwritten with the conversions of one read cycle. -/
theorem update_sd_cases (bus : Bus) (addr : Nat) (fr : Bool) (w : World) :
    ((X720Handler.update bus addr fr w).1).sensor_data = w.sensor_data ∨
    (∃ n v2 v4, bus n addr 2 = Except.ok v2 ∧ bus (n + 1) addr 4 = Except.ok v4 ∧
      ((X720Handler.update bus addr fr w).1).sensor_data =
        { voltage := PyVal.vNum (voltageConv (swap16 v2)),
          capacity := PyVal.vNum (capacityConv (swap16 v4)) }) := by
  cases fr with
  | false =>
    rw [update_false]
    rcases updateMain_sd_cases bus addr w with h | ⟨v2, v4, hb2, hb4, h⟩
    · exact Or.inl h
    · exact Or.inr ⟨w.counter, v2, v4, hb2, hb4, h⟩
  | true =>
    rcases hg : get_sensor_data bus addr w with ⟨w1, r⟩
    have hsd := gsd_sd bus addr w
    rw [hg] at hsd
    cases r with
    | error e =>
      rw [update_true_err bus addr w w1 e hg]
      exact Or.inl hsd
    | ok b =>
      rw [update_true_ok bus addr w w1 b hg]
      rcases updateMain_sd_cases bus addr w1 with h | ⟨v2, v4, hb2, hb4, h⟩
      · left
        rw [h]
        exact hsd
      · exact Or.inr ⟨w1.counter, v2, v4, hb2, hb4, h⟩

/-- One `update` preserves the handler-cache coherence property. -/
theorem update_SDConsistent (bus : Bus) (addr : Nat) (fr : Bool) (w : World)
    (h : SDConsistent bus addr w.sensor_data) :
    SDConsistent bus addr ((X720Handler.update bus addr fr w).1).sensor_data := by
  rcases update_sd_cases bus addr fr w with heq | ⟨n, v2, v4, hb2, hb4, heq⟩
  · rw [heq]
    exact h
  · right
    exact ⟨n, v2, v4, hb2, hb4, heq⟩

/-- Any sequence of `update` calls preserves the handler-cache coherence
property. -/
theorem runUpdates_SDConsistent (bus : Bus) (addr : Nat) (ops : List Bool)
    (w : World) (h : SDConsistent bus addr w.sensor_data) :
    SDConsistent bus addr (runUpdates bus addr ops w).sensor_data := by
  induction ops generalizing w with
  | nil => exact h
  | cons fr rest ih =>
    exact ih (X720Handler.update bus addr fr w).1 (update_SDConsistent bus addr fr w h)

/-! ### Claim theorems -/

/-- Claim C5: for raw words delivered by the device, `get_sensor_data`
reads the voltage register at offset 2 and the capacity register at
offset 4 (visible in the trace), byte-swaps each word and stores
`voltage = v * 1.25 / 1000 / 16` and `capacity = v / 256`, with no
clamping or rounding; in particular corrected `v = 0` yields voltage `0`
and capacity `0`, corrected `v = 3200` yields voltage `0.25`, and
corrected `v = 12800` yields capacity `50`. -/
theorem claim_C5_register_conversion (bus : Bus) (addr : Nat) (w : World)
    (v2 v4 : Nat)
    (h2 : bus w.counter addr 2 = Except.ok v2)
    (h4 : bus (w.counter + 1) addr 4 = Except.ok v4) :
    (get_sensor_data bus addr w =
      ({ data := { status := w.data.status,
                   voltage := PyVal.vNum (voltageConv (swap16 v2)),
                   capacity := PyVal.vNum (capacityConv (swap16 v4)) },
         sensor_data := w.sensor_data,
         counter := w.counter + 2,
         trace := w.trace ++ [Event.read w.counter addr 2,
                              Event.read (w.counter + 1) addr 4] },
       Except.ok true)) ∧
    voltageConv (swap16 0) = 0 ∧ capacityConv (swap16 0) = 0 ∧
    voltageConv 3200 = 1 / 4 ∧ capacityConv 12800 = 50 := by
  refine ⟨gsd_ok bus addr w v2 v4 h2 h4, ?_, ?_, ?_, ?_⟩
  · norm_num [voltageConv, swap16]
  · norm_num [capacityConv, swap16]
  · norm_num [voltageConv]
  · norm_num [capacityConv]

/-- Witness for C5 at a concrete transport returning raw word `0`. -/
theorem claim_C5_register_conversion_witness :
    (get_sensor_data (fun _ _ _ => Except.ok 0) 0x36 World.init =
      ({ data := { status := PyVal.vNone,
                   voltage := PyVal.vNum (voltageConv (swap16 0)),
                   capacity := PyVal.vNum (capacityConv (swap16 0)) },
         sensor_data := SensorData.init,
         counter := 2,
         trace := [Event.read 0 0x36 2, Event.read 1 0x36 4] },
       Except.ok true)) ∧
    voltageConv (swap16 0) = 0 ∧ capacityConv (swap16 0) = 0 ∧
    voltageConv 3200 = 1 / 4 ∧ capacityConv 12800 = 50 :=
  claim_C5_register_conversion (fun _ _ _ => Except.ok 0) 0x36 World.init 0 0 rfl rfl

/-- Claim C6: the 16-bit byte swap used in register conversion is an
involution on 16-bit words. -/
theorem claim_C6_swap_involution (w : Nat) (h : w < 65536) :
    swap16 (swap16 w) = w := by
  unfold swap16
  have h1 : w / 256 % 256 = w / 256 := Nat.mod_eq_of_lt (by omega)
  rw [h1, Nat.mul_comm (w % 256) 256, Nat.mul_add_mod,
      Nat.mul_add_div (by norm_num : 0 < 256)]
  have h2 : w / 256 / 256 = 0 := Nat.div_eq_of_lt (by omega)
  rw [h1, h2]
  omega

/-- Witness for C6 at the concrete word `0xABCD`. -/
theorem claim_C6_swap_involution_witness :
    43981 < 65536 ∧ swap16 (swap16 43981) = 43981 :=
  ⟨by decide, claim_C6_swap_involution 43981 (by decide)⟩

/-- Claim C9 (implicit): whenever `get_sensor_data` returns normally, its
boolean result is `True`; failure is never signalled through the return
value. -/
theorem claim_C9_returns_true (bus : Bus) (addr : Nat) (w w' : World) (b : Bool)
    (h : get_sensor_data bus addr w = (w', Except.ok b)) : b = true := by
  rcases hb2 : bus w.counter addr 2 with e | v2
  · rw [gsd_err1 bus addr w e hb2] at h
    injection h with h1 h2
    injection h2
  · rcases hb4 : bus (w.counter + 1) addr 4 with e | v4
    · rw [gsd_err2 bus addr w v2 e hb2 hb4] at h
      injection h with h1 h2
      injection h2
    · rw [gsd_ok bus addr w v2 v4 hb2 hb4] at h
      injection h with h1 h2
      injection h2 with h3
      exact h3.symm

/-- Witness for C9 at a concrete transport. -/
theorem claim_C9_returns_true_witness : true = true :=
  claim_C9_returns_true (fun _ _ _ => Except.ok 0) 0x36 World.init
    ({ data := { status := PyVal.vNone,
                 voltage := PyVal.vNum (voltageConv (swap16 0)),
                 capacity := PyVal.vNum (capacityConv (swap16 0)) },
       sensor_data := SensorData.init,
       counter := 2,
       trace := [Event.read 0 0x36 2, Event.read 1 0x36 4] })
    true rfl

/-- Claim C10 (implicit): after any sequence of handler operations, the
handler cache either still holds its initial `None`/`None` pair, or both
fields hold the numeric conversions of the two consecutive reads of one
and the same successful read cycle. -/
theorem claim_C10_cache_coherent (bus : Bus) (addr : Nat) (ops : List Bool) :
    SDConsistent bus addr (runUpdates bus addr ops World.init).sensor_data :=
  runUpdates_SDConsistent bus addr ops World.init (Or.inl rfl)

/-- Claim C8: once the handler cache holds a reading (fields not `None`),
no `update` — in either mode, succeeding or raising — ever reverts it to
`None`; the cache is either left unchanged or replaced wholesale by a new
numeric pair. -/
theorem claim_C8_never_reverts (bus : Bus) (addr : Nat) (fr : Bool) (w : World)
    (hv : w.sensor_data.voltage ≠ PyVal.vNone)
    (hc : w.sensor_data.capacity ≠ PyVal.vNone) :
    ((X720Handler.update bus addr fr w).1).sensor_data.voltage ≠ PyVal.vNone ∧
    ((X720Handler.update bus addr fr w).1).sensor_data.capacity ≠ PyVal.vNone ∧
    (((X720Handler.update bus addr fr w).1).sensor_data = w.sensor_data ∨
      ∃ q c, ((X720Handler.update bus addr fr w).1).sensor_data =
        { voltage := PyVal.vNum q, capacity := PyVal.vNum c }) := by
  rcases update_sd_cases bus addr fr w with heq | ⟨n, v2, v4, hb2, hb4, heq⟩
  · rw [heq]
    exact ⟨hv, hc, Or.inl rfl⟩
  · rw [heq]
    exact ⟨by simp, by simp, Or.inr ⟨_, _, rfl⟩⟩

/-- Witness for C8: a cache holding `1.0`/`2.0` stays non-`None` across an
`update` whose reads all raise. -/
theorem claim_C8_never_reverts_witness :
    ((X720Handler.update (fun _ _ _ => Except.error BusError.ioError) 0x36 false
        { data := FieldData.init,
          sensor_data := { voltage := PyVal.vNum 1, capacity := PyVal.vNum 2 },
          counter := 0, trace := [] }).1).sensor_data.voltage ≠ PyVal.vNone ∧
    ((X720Handler.update (fun _ _ _ => Except.error BusError.ioError) 0x36 false
        { data := FieldData.init,
          sensor_data := { voltage := PyVal.vNum 1, capacity := PyVal.vNum 2 },
          counter := 0, trace := [] }).1).sensor_data.capacity ≠ PyVal.vNone ∧
    (((X720Handler.update (fun _ _ _ => Except.error BusError.ioError) 0x36 false
        { data := FieldData.init,
          sensor_data := { voltage := PyVal.vNum 1, capacity := PyVal.vNum 2 },
          counter := 0, trace := [] }).1).sensor_data =
      ({ data := FieldData.init,
         sensor_data := { voltage := PyVal.vNum 1, capacity := PyVal.vNum 2 },
         counter := 0, trace := [] } : World).sensor_data ∨
      ∃ q c, ((X720Handler.update (fun _ _ _ => Except.error BusError.ioError) 0x36 false
        { data := FieldData.init,
          sensor_data := { voltage := PyVal.vNum 1, capacity := PyVal.vNum 2 },
          counter := 0, trace := [] }).1).sensor_data =
        { voltage := PyVal.vNum q, capacity := PyVal.vNum c }) :=
  claim_C8_never_reverts (fun _ _ _ => Except.error BusError.ioError) 0x36 false
    { data := FieldData.init,
      sensor_data := { voltage := PyVal.vNum 1, capacity := PyVal.vNum 2 },
      counter := 0, trace := [] }
    (by simp [PyVal.vNum.injEq]) (by simp)

/-- Claim C2 (counterexample): with a reading `5.0`/`6.0` cached in all
copies and a transport whose voltage read succeeds (raw `0`) but whose
capacity read raises, `update` fails — yet the device-side buffer
`X720.data.voltage` has been overwritten: the stored copies are *not* left
entirely unchanged; the update is partial. -/
theorem claim_C2_counterexample :
    (X720Handler.update
        (fun n _ _ => if n = 0 then Except.ok 0 else Except.error BusError.ioError)
        0x36 false
        { data := { status := PyVal.vNone, voltage := PyVal.vNum 5,
                    capacity := PyVal.vNum 6 },
          sensor_data := { voltage := PyVal.vNum 5, capacity := PyVal.vNum 6 },
          counter := 0, trace := [] }).2 = Except.error BusError.ioError ∧
    ((X720Handler.update
        (fun n _ _ => if n = 0 then Except.ok 0 else Except.error BusError.ioError)
        0x36 false
        { data := { status := PyVal.vNone, voltage := PyVal.vNum 5,
                    capacity := PyVal.vNum 6 },
          sensor_data := { voltage := PyVal.vNum 5, capacity := PyVal.vNum 6 },
          counter := 0, trace := [] }).1).data.voltage ≠ PyVal.vNum 5 := by
  rw [update_false, updateMain_err _ _ _ _ _
    (gsd_err2 (fun n _ _ => if n = 0 then Except.ok 0 else Except.error BusError.ioError)
      0x36
      { data := { status := PyVal.vNone, voltage := PyVal.vNum 5,
                  capacity := PyVal.vNum 6 },
        sensor_data := { voltage := PyVal.vNum 5, capacity := PyVal.vNum 6 },
        counter := 0, trace := [] }
      0 BusError.ioError rfl rfl)]
  refine ⟨rfl, ?_⟩
  norm_num [voltageConv, swap16, PyVal.vNum.injEq]

/-- Claim C2 (amended): on a bus fault from either read, the *handler*
cache is left unchanged (the device-side buffer may be partially updated,
see the counterexample, and the failure is a propagated exception). -/
theorem claim_C2_amended (bus : Bus) (addr : Nat) (fr : Bool) (w w' : World)
    (e : BusError)
    (h : X720Handler.update bus addr fr w = (w', Except.error e)) :
    w'.sensor_data = w.sensor_data := by
  cases fr with
  | false =>
    rw [update_false] at h
    exact updateMain_err_sd bus addr w w' e h
  | true =>
    have hsd := gsd_sd bus addr w
    rcases hg : get_sensor_data bus addr w with ⟨w1, r⟩
    rw [hg] at hsd
    cases r with
    | error e1 =>
      rw [update_true_err bus addr w w1 e1 hg] at h
      injection h with h1 h2
      rw [← h1]
      exact hsd
    | ok b =>
      rw [update_true_ok bus addr w w1 b hg] at h
      rw [updateMain_err_sd bus addr w1 w' e h]
      exact hsd

/-- Witness for C2 (amended) at a transport whose first read raises. -/
theorem claim_C2_amended_witness :
    ({ data := FieldData.init, sensor_data := SensorData.init,
       counter := 1, trace := [Event.read 0 0x36 2] } : World).sensor_data =
      World.init.sensor_data :=
  claim_C2_amended (fun _ _ _ => Except.error BusError.ioError) 0x36 false
    World.init
    { data := FieldData.init, sensor_data := SensorData.init,
      counter := 1, trace := [Event.read 0 0x36 2] }
    BusError.ioError rfl

/-- Claim C4 (counterexample): constructing `X720` with a transport that
raises on every read itself raises (construction fails), and its trace
shows a bus read was attempted during construction. -/
theorem claim_C4_counterexample :
    (X720.init (fun _ _ _ => Except.error BusError.ioError) 0x36 World.init).2
        = Except.error BusError.ioError ∧
    (X720.init (fun _ _ _ => Except.error BusError.ioError) 0x36 World.init).1.trace
        = [Event.read 0 0x36 2] := by
  rw [X720init_err1 (fun _ _ _ => Except.error BusError.ioError) 0x36 World.init
    BusError.ioError rfl]
  exact ⟨rfl, rfl⟩

/-- Claim C4 (amended): construction stores the handle *and* performs one
`get_sensor_data` cycle — bus I/O always happens (the trace grows), and
when the first read raises, construction fails with that exception. -/
theorem claim_C4_amended (bus : Bus) (addr : Nat) (w : World) :
    w.trace.length < ((X720.init bus addr w).1).trace.length ∧
    (∀ e, bus w.counter addr 2 = Except.error e →
      (X720.init bus addr w).2 = Except.error e) := by
  constructor
  · rw [X720init_fst]
    exact gsd_trace_grows bus addr { w with data := FieldData.init }
  · intro e he
    rw [X720init_err1 bus addr w e he]

/-- Witness for C4 (amended) at a transport that always raises. -/
theorem claim_C4_amended_witness :
    World.init.trace.length <
      ((X720.init (fun _ _ _ => Except.error BusError.ioError) 0x36
          World.init).1).trace.length ∧
    (X720.init (fun _ _ _ => Except.error BusError.ioError) 0x36 World.init).2
        = Except.error BusError.ioError :=
  ⟨(claim_C4_amended (fun _ _ _ => Except.error BusError.ioError) 0x36 World.init).1,
   (claim_C4_amended (fun _ _ _ => Except.error BusError.ioError) 0x36 World.init).2
     BusError.ioError rfl⟩

/-- Claim C1 (counterexample): in the concrete initialization run with an
always-succeeding transport, six reads are performed but *no* read is
separated from a later read by a ≥ 500 ms sleep: the single sleep comes
after all reads, so the claimed "throwaway read, ≥ 500 ms delay, evaluated
read" ordering does not occur. -/
theorem claim_C1_counterexample :
    countReads (setup_x720 (fun _ _ _ => Except.ok 0) 0x36).1.trace = 6 ∧
    (setup_x720 (fun _ _ _ => Except.ok 0) 0x36).1.trace =
      [Event.read 0 0x36 2, Event.read 1 0x36 4, Event.read 2 0x36 2,
       Event.read 3 0x36 4, Event.read 4 0x36 2, Event.read 5 0x36 4,
       Event.sleepMs 500] ∧
    hasReadThenSleepThenRead (setup_x720 (fun _ _ _ => Except.ok 0) 0x36).1.trace
      = false := by
  rw [setup_allok (fun _ _ _ => Except.ok 0) 0x36 0 0 0 0 0 0 rfl rfl rfl rfl rfl rfl]
  exact ⟨by decide, rfl, by decide⟩

/-- Claim C1 (amended): for every transport whose reads succeed,
`_setup_x720` performs all six reads (two in the `X720` constructor, four
in the handler constructor) back to back, then a single 500 ms sleep, and
only then evaluates success; the read path is invoked at least twice, but
there is no delay between the throwaway read and the evaluated read — the
delay lies between the last read and the evaluation. -/
theorem claim_C1_amended (bus : Bus) (addr : Nat)
    (hok : ∀ n a r, ∃ v, bus n a r = Except.ok v) :
    2 ≤ countReads (setup_x720 bus addr).1.trace ∧
    (setup_x720 bus addr).1.trace =
      [Event.read 0 addr 2, Event.read 1 addr 4, Event.read 2 addr 2,
       Event.read 3 addr 4, Event.read 4 addr 2, Event.read 5 addr 4,
       Event.sleepMs 500] ∧
    hasReadThenSleepThenRead (setup_x720 bus addr).1.trace = false := by
  obtain ⟨v0, h0⟩ := hok 0 addr 2
  obtain ⟨v1, h1⟩ := hok 1 addr 4
  obtain ⟨v2, h2⟩ := hok 2 addr 2
  obtain ⟨v3, h3⟩ := hok 3 addr 4
  obtain ⟨v4, h4⟩ := hok 4 addr 2
  obtain ⟨v5, h5⟩ := hok 5 addr 4
  rw [setup_allok bus addr v0 v1 v2 v3 v4 v5 h0 h1 h2 h3 h4 h5]
  refine ⟨?_, rfl, ?_⟩
  · simp [countReads, Event.isRead]
  · simp [hasReadThenSleepThenRead, hasSleepThenRead, Event.isRead,
          Event.isSleepGE]

/-- Witness for C1 (amended) at an always-succeeding transport. -/
theorem claim_C1_amended_witness :
    2 ≤ countReads (setup_x720 (fun _ _ _ => Except.ok 1) 0x36).1.trace ∧
    (setup_x720 (fun _ _ _ => Except.ok 1) 0x36).1.trace =
      [Event.read 0 0x36 2, Event.read 1 0x36 4, Event.read 2 0x36 2,
       Event.read 3 0x36 4, Event.read 4 0x36 2, Event.read 5 0x36 4,
       Event.sleepMs 500] ∧
    hasReadThenSleepThenRead (setup_x720 (fun _ _ _ => Except.ok 1) 0x36).1.trace
      = false :=
  claim_C1_amended (fun _ _ _ => Except.ok 1) 0x36 (fun _ _ _ => ⟨1, rfl⟩)

/-- Claim C3 (counterexample): with a transport that serves the two
constructor reads and then raises, the bus fault of the handler's first
read escapes `_setup_x720` as an unhandled exception — an error does
escape as a crash. -/
theorem claim_C3_counterexample :
    (setup_x720
        (fun n _ _ => if n < 2 then Except.ok 0 else Except.error BusError.ioError)
        0x36).2 = Except.error BusError.ioError :=
  setup_err_handler
    (fun n _ _ => if n < 2 then Except.ok 0 else Except.error BusError.ioError)
    0x36 0 0 BusError.ioError rfl rfl rfl

/-- Claim C3 (amended): only a bus fault inside the `X720(...)`
construction is caught and turned into a `None` result; a bus fault during
the handler's subsequent reads propagates out of `_setup_x720` as an
unhandled exception. -/
theorem claim_C3_amended (bus : Bus) (addr : Nat) :
    (∀ e, bus 0 addr 2 = Except.error e →
      (setup_x720 bus addr).2 = Except.ok SetupResult.noneNotDetected) ∧
    (∀ v0 v1 e, bus 0 addr 2 = Except.ok v0 → bus 1 addr 4 = Except.ok v1 →
      bus 2 addr 2 = Except.error e →
      (setup_x720 bus addr).2 = Except.error e) := by
  constructor
  · intro e he
    rw [setup_err0 bus addr e he]
  · intro v0 v1 e h0 h1 h2
    exact setup_err_handler bus addr v0 v1 e h0 h1 h2

/-- Witness for C3 (amended) at two concrete transports. -/
theorem claim_C3_amended_witness :
    (setup_x720 (fun _ _ _ => Except.error BusError.ioError) 0x36).2
        = Except.ok SetupResult.noneNotDetected ∧
    (setup_x720
        (fun n _ _ => if n < 2 then Except.ok 1 else Except.error BusError.ioError)
        0x36).2 = Except.error BusError.ioError :=
  ⟨(claim_C3_amended (fun _ _ _ => Except.error BusError.ioError) 0x36).1
      BusError.ioError rfl,
   (claim_C3_amended
      (fun n _ _ => if n < 2 then Except.ok 1 else Except.error BusError.ioError)
      0x36).2 1 1 BusError.ioError rfl rfl rfl⟩

/-- Claim C7 (counterexample): with a transport that always returns raw
word `0`, setup does fail (returns `None` via the falsy-voltage check),
but the handler cache does *not* remain `None`: its voltage holds the
numeric value `0.0` written by the successful zero-read. -/
theorem claim_C7_counterexample :
    (setup_x720 (fun _ _ _ => Except.ok 0) 1).2
        = Except.ok SetupResult.noneInitFailed ∧
    (setup_x720 (fun _ _ _ => Except.ok 0) 1).1.sensor_data.voltage
        ≠ PyVal.vNone := by
  rw [setup_allok (fun _ _ _ => Except.ok 0) 1 0 0 0 0 0 0 rfl rfl rfl rfl rfl rfl]
  have h0 : voltageConv (swap16 0) = 0 := by norm_num [voltageConv, swap16]
  constructor
  · rw [h0]
    simp [PyVal.falsy]
  · simp

/-- Claim C7 (amended): when every read yields raw word `0` (voltage 0),
initialization fails with the falsy-voltage check (`None` is returned),
but the handler cache holds the numeric reading `0.0`/`0.0` from the
successful zero reads rather than remaining `None`. -/
theorem claim_C7_amended (bus : Bus) (addr : Nat)
    (h : ∀ n a r, bus n a r = Except.ok 0) :
    (setup_x720 bus addr).2 = Except.ok SetupResult.noneInitFailed ∧
    (setup_x720 bus addr).1.sensor_data.voltage = PyVal.vNum 0 ∧
    (setup_x720 bus addr).1.sensor_data.capacity = PyVal.vNum 0 := by
  rw [setup_allok bus addr 0 0 0 0 0 0 (h 0 addr 2) (h 1 addr 4) (h 2 addr 2)
      (h 3 addr 4) (h 4 addr 2) (h 5 addr 4)]
  have h0 : voltageConv (swap16 0) = 0 := by norm_num [voltageConv, swap16]
  have hc : capacityConv (swap16 0) = 0 := by norm_num [capacityConv, swap16]
  refine ⟨?_, ?_, ?_⟩
  · rw [h0]
    simp [PyVal.falsy]
  · rw [h0]
  · rw [hc]

/-- Witness for C7 (amended) at the all-zero transport. -/
theorem claim_C7_amended_witness :
    (setup_x720 (fun _ _ _ => Except.ok 0) 2).2
        = Except.ok SetupResult.noneInitFailed ∧
    (setup_x720 (fun _ _ _ => Except.ok 0) 2).1.sensor_data.voltage
        = PyVal.vNum 0 ∧
    (setup_x720 (fun _ _ _ => Except.ok 0) 2).1.sensor_data.capacity
        = PyVal.vNum 0 :=
  claim_C7_amended (fun _ _ _ => Except.ok 0) 2 (fun _ _ _ => rfl)
